import Mathlib

/-!
# smlr: polling loop, HTTP probe and TCP probe

A shallow embedding of `smlr/http.go`, `smlr/tcp.go` and `waitstaff/waiter.go`.

* Go `string` and `[]byte` are both byte sequences and are both embedded as
  `GoString = List UInt8`; `str` writes an ASCII literal.
* Go `error` values are embedded as `GoError`, which keeps the dynamic type that
  the source switches on and the text returned by `Error()`.
* Everything the network decides during one call of `request` is an explicit
  argument (`HTTPAttempt`, `TCPAttempt`), including the branch a `select` takes
  where more than one channel can be ready.
* `TCPWaiter.request` has a pointer receiver and assigns to `t.Write`, so it
  returns the receiver next to the status.
-/

namespace Smlr

/-! ## Strings, bytes and errors -/

/-- Go `string` / `[]byte`: a sequence of bytes. -/
abbrev GoString := List UInt8

/-- An ASCII literal of the source as bytes. -/
def str (s : String) : GoString := s.toList.map fun c => UInt8.ofNat c.toNat

/-- Go `bytes.HasPrefix` / `strings.HasPrefix`. -/
def hasPrefix : GoString → GoString → Bool
  | _, [] => true
  | [], _ :: _ => false
  | x :: xs, y :: ys => x == y && hasPrefix xs ys

/-- Go `bytes.Contains` / `strings.Contains`: `sub` occurs in `s` at some index. -/
def contains : GoString → GoString → Bool
  | [], sub => hasPrefix [] sub
  | x :: xs, sub => hasPrefix (x :: xs) sub || contains xs sub

/-- Go `strings.HasSuffix`. -/
def hasSuffix (s suffix : GoString) : Bool :=
  hasPrefix s.reverse suffix.reverse

/-- The contiguous-substring relation the claims speak of. -/
def Occurs (sub s : GoString) : Prop := ∃ a b, s = a ++ sub ++ b

/-- Dynamic type of the `Err` field of a `*net.OpError`, as far as `tcp.go` switches on it. -/
inductive ErrCause where
  | dnsError
  | syscallError
  | addrError
  | otherCause
deriving DecidableEq, Repr

/-- Go `error` values: the sentinel `io.EOF`, values of `errors.New`, `*net.OpError`,
and every other error type. -/
inductive GoError where
  | eof
  | errorString (text : GoString)
  | opError (cause : ErrCause) (text : GoString)
  | other (text : GoString)
deriving DecidableEq, Repr

/-- Go `err.Error()`. -/
def GoError.Error : GoError → GoString
  | .eof => str "EOF"
  | .errorString text => text
  | .opError _ text => text
  | .other text => text

/-- Go `errors.New`. -/
def errorsNew (text : GoString) : GoError := .errorString text

/-- Package variable `errNoMatch` (tcp.go). -/
def errNoMatch : GoError := errorsNew (str "no content match")

/-- Package variable `errNoMatchTimeout` (tcp.go). -/
def errNoMatchTimeout : GoError := errorsNew (str "no content match within iotimeout")

/-! ## Status (waitstaff/waiter.go) -/

/-- Status is returned from waiters. Omitted fields take Go's zero values. -/
structure Status where
  Done : Bool := false
  Message : GoString := []
  Error : Option GoError := none
deriving DecidableEq, Repr

/-! ## HTTP probe (smlr/http.go) -/

/-- HTTPWaiter waits for an HTTP call to return. -/
structure HTTPWaiter where
  Method : GoString
  URL : GoString
  ExpectedStatus : Int
  Content : GoString
  EntireContent : Bool
deriving DecidableEq, Repr

/-- What `http.NewRequest` keeps of its arguments. -/
structure Request where
  Method : GoString
  URL : GoString
deriving DecidableEq, Repr

/-- The parts of `*http.Response` that `request` reads. `Body` and `BodyErr` are the two
results of `ioutil.ReadAll(resp.Body)`. -/
structure Response where
  Status : GoString
  StatusCode : Int
  Body : GoString
  BodyErr : Option GoError
deriving DecidableEq, Repr

/-- How the `select` of `do` ends. With `<-ctx.Done()` the request is cancelled and the
status the callback computes is received and dropped; with `<-errs` the callback's status,
computed from the two results of `client.Do(req)`, is returned. -/
inductive Exchange where
  | cancelled (ctxErr : GoError)
  | completed (result : Except GoError Response)

/-- What the outside world decides during one call of `HTTPWaiter.request`. -/
structure HTTPAttempt where
  /-- Result of `http.NewRequest(method, url, nil)`. -/
  newRequest : GoString → GoString → Except GoError Request
  /-- Outcome of sending the request inside `do`. -/
  exchange : Request → Exchange

/-- Go `fmt.Sprintf` with the format of http.go line 93. -/
def statusMismatchMessage (status : GoString) (expected : Int) : GoString :=
  str "status \"" ++ status ++ str "\" does not match expected status (" ++
    str (toString expected) ++ str ")"

/-- The callback `request` passes to `do` (http.go lines 77 to 126). -/
def HTTPWaiter.requestCallback (h : HTTPWaiter) : Except GoError Response → Status
  | .error err =>
    if contains err.Error (str "connection refused") then
      { Done := false, Message := str "connection refused" }
    else if contains err.Error (str "no such host") then
      { Done := false, Message := str "could not reach host" }
    else
      { Done := false, Message := err.Error }
  | .ok resp =>
    if resp.StatusCode ≠ h.ExpectedStatus then
      { Done := false, Message := statusMismatchMessage resp.Status h.ExpectedStatus }
    else if h.Content ≠ [] then
      match resp.BodyErr with
      | some _ => { Done := false, Message := str "could not read body" }
      | none =>
        if h.EntireContent then
          if ¬ resp.Body = h.Content then
            { Done := false, Message := str "response does not match content" }
          else
            { Done := true, Message := str "service available" }
        else
          if ¬ contains resp.Body h.Content then
            { Done := false, Message := str "response does not contain content" }
          else
            { Done := true, Message := str "service available" }
    else
      { Done := true, Message := str "service available" }

/-- `HTTPWaiter.do`: the request runs, and the `select` returns either a status with
`ctx.Err()` or the callback's status. -/
def HTTPWaiter.doReq (_h : HTTPWaiter) (a : HTTPAttempt) (req : Request)
    (cb : Except GoError Response → Status) : Status :=
  match a.exchange req with
  | .cancelled ctxErr => { Error := some ctxErr }
  | .completed result => cb result

/-- `HTTPWaiter.request`. -/
def HTTPWaiter.request (h : HTTPWaiter) (a : HTTPAttempt) : Status :=
  match a.newRequest h.Method h.URL with
  | .error err => { Error := some err }
  | .ok req => h.doReq a req h.requestCallback

/-! ## Polling loop (`startWaiting`, http.go lines 36 to 69 and tcp.go lines 43 to 76) -/

/-- The case taken by one `select` of `startWaiting`. A `next` case carries what the
outside world decides during the attempt it starts. -/
inductive SelectCase (α : Type) where
  | timedOut
  | ctxDone
  | next (attempt : α)

/-- State of the output channel: the statuses sent so far, and whether `close(out)`
has run (it runs when the loop is left). -/
structure Output where
  out : List Status
  closed : Bool
deriving DecidableEq, Repr

/-- The loop of `startWaiting` along a script of `select` outcomes. `request` returns
the receiver after the call next to the status. A script that ends before a status
with `Done` leaves the loop waiting in its `select`, with the channel open. -/
def startWaitingLoop {σ α : Type} (request : σ → α → σ × Status) :
    σ → List (SelectCase α) → Output
  | _, [] => { out := [], closed := false }
  | w, c :: rest =>
    let r : σ × Status :=
      match c with
      | .timedOut => (w, { Done := true, Error := some (errorsNew (str "timed out")) })
      | .ctxDone => (w, { Done := true, Error := some (errorsNew (str "cancelled, ceasing wait")) })
      | .next a => request w a
    if r.2.Done then
      { out := [r.2], closed := true }
    else
      let o := startWaitingLoop request r.1 rest
      { out := r.2 :: o.out, closed := o.closed }

/-- `HTTPWaiter.startWaiting`. -/
def HTTPWaiter.startWaiting (h : HTTPWaiter) (script : List (SelectCase HTTPAttempt)) : Output :=
  startWaitingLoop (fun w a => (w, w.request a)) h script

/-! ## TCP probe (smlr/tcp.go) -/

/-- TCPWaiter waits for an TCP call to return with specified content. `IOTimeout` is a
`time.Duration`, a number of nanoseconds. -/
structure TCPWaiter where
  URL : GoString
  Content : GoString
  Write : GoString
  IOTimeout : Int
  EntireContent : Bool
deriving DecidableEq, Repr

/-- What the outside world decides during one call of `TCPWaiter.request`. -/
structure TCPAttempt where
  /-- Error of `net.Dial("tcp", url)`, `none` when the connection is established. -/
  dial : GoString → Option GoError
  /-- Error of `conn.Write(payload)`. -/
  write : GoString → Option GoError
  /-- Bytes the reads deliver before a read fails. -/
  stream : GoString
  /-- Error of the read that follows the last byte: `io.EOF` at the end of the stream,
  a timeout when the deadline passes first, or another error. -/
  streamEnd : GoError
  /-- For the n-th `select` of the matching loop: whether the `matched` case is the one
  taken when a match task is ready to send on it. -/
  matchedFirst : Nat → Bool

/-- What `TCPWaiter.request` leaves behind: the receiver after the call, the argument of
`conn.Write` when that call is reached, and the returned status. -/
structure TCPResult where
  waiter : TCPWaiter
  written : Option GoString
  status : Status
deriving DecidableEq, Repr

/-- A communication the reader task of tcp.go lines 147 to 169 offers to the loop. -/
inductive Offer where
  | read (b : UInt8)
  | eof
  | errs (e : GoError)
deriving DecidableEq, Repr

/-- The channel the reader task sends on after its next `rdr.ReadByte()`. -/
def readerOffer (stream : GoString) (streamEnd : GoError) : Offer :=
  match stream with
  | b :: _ => .read b
  | [] =>
    if streamEnd = .eof then .eof
    else if contains streamEnd.Error (str "i/o timeout") then .errs errNoMatchTimeout
    else .errs streamEnd

/-- The `for`/`select` loop of tcp.go lines 173 to 191. `content` is the accumulator,
`matchReady` says that some match task spawned so far found `expected` in its copy of
`content` and so sends on `matched`, and `n` counts the `select`s. The `matched` case is
taken when a match task is ready and the schedule gives it precedence; otherwise the loop
takes what the reader task offers. -/
def selectLoop (expected : GoString) (matchedFirst : Nat → Bool) (streamEnd : GoError) :
    GoString → Nat → GoString → Bool → Status
  | [], n, _, matchReady =>
    if matchReady && matchedFirst n then
      { Done := true, Message := str "service available" }
    else
      match readerOffer [] streamEnd with
      | .errs err => { Done := true, Error := some err }
      | .eof => { Done := true, Error := some errNoMatch }
      | .read _ => { Done := true, Error := some errNoMatch }
  | b :: rest, n, content, matchReady =>
    if matchReady && matchedFirst n then
      { Done := true, Message := str "service available" }
    else
      let content := content ++ [b]
      selectLoop expected matchedFirst streamEnd rest (n + 1) content
        (matchReady || contains content expected)

/-- The "error matching" switch of `TCPWaiter.request` (tcp.go lines 87 to 103) on a
connect error. -/
def TCPWaiter.errorMatching (err : GoError) : Status :=
  match err with
  | .opError .dnsError _ => { Done := false, Message := str "could not reach host" }
  | .opError .syscallError _ => { Done := false, Message := str "connection refused" }
  | .opError .addrError _ => { Done := false, Message := str "connection refused" }
  | .opError .otherCause _ => { Error := some err }
  | _ => { Error := some err }

/-- The "writing to the connection" section of `TCPWaiter.request` (tcp.go lines 105 to
117): the receiver after the assignment to `t.Write`, the argument of `conn.Write` when it
is called, and its error. -/
def TCPWaiter.writing (t : TCPWaiter) (a : TCPAttempt) :
    TCPWaiter × Option GoString × Option GoError :=
  if t.Write ≠ [] then
    let t1 : TCPWaiter :=
      if ¬ hasSuffix t.Write (str "\n") then { t with Write := t.Write ++ str "\n" } else t
    (t1, some t1.Write, a.write t1.Write)
  else
    (t, none, none)

/-- The "content matching" section of `TCPWaiter.request` (tcp.go lines 119 to 196), with
`ioutil.ReadAll` for `EntireContent` and the reader task and matching loop otherwise. -/
def TCPWaiter.contentMatching (t : TCPWaiter) (a : TCPAttempt) : Status :=
  if t.Content ≠ [] then
    if t.EntireContent then
      if a.streamEnd ≠ .eof then
        if contains a.streamEnd.Error (str "i/o timeout") then
          { Done := true, Error := some errNoMatchTimeout }
        else
          { Done := true, Error := some a.streamEnd }
      else if a.stream = t.Content then
        { Done := true, Message := str "service available" }
      else
        { Done := true, Error := some errNoMatch }
    else
      selectLoop t.Content a.matchedFirst a.streamEnd a.stream 0 [] false
  else
    { Done := true, Message := str "service available" }

/-- `TCPWaiter.request`. -/
def TCPWaiter.request (t : TCPWaiter) (a : TCPAttempt) : TCPResult :=
  match a.dial t.URL with
  | some err => { waiter := t, written := none, status := TCPWaiter.errorMatching err }
  | none =>
    let w := t.writing a
    match w.2.2 with
    | some err => { waiter := w.1, written := w.2.1, status := { Done := true, Error := some err } }
    | none => { waiter := w.1, written := w.2.1, status := w.1.contentMatching a }

/-- `TCPWaiter.startWaiting`. -/
def TCPWaiter.startWaiting (t : TCPWaiter) (script : List (SelectCase TCPAttempt)) : Output :=
  startWaitingLoop (fun w a => ((w.request a).waiter, (w.request a).status)) t script

/-! ## Concrete configurations and attempts used as examples -/

/-- The waiter of `TestHTTPWaiterRequestGoodStatus`. -/
def pongWaiter : HTTPWaiter :=
  { Method := str "GET", URL := str "http://127.0.0.1:8080", ExpectedStatus := 200,
    Content := str "pong", EntireContent := true }

/-- An attempt in which the server answers `status`/`code` with `body`. -/
def answers (status : String) (code : Int) (body : String) : HTTPAttempt :=
  { newRequest := fun m u => .ok { Method := m, URL := u },
    exchange := fun _ => .completed (.ok { Status := str status, StatusCode := code,
                                           Body := str body, BodyErr := none }) }

/-- An attempt in which `client.Do` fails with an error of text `text`. -/
def transportFails (text : String) : HTTPAttempt :=
  { newRequest := fun m u => .ok { Method := m, URL := u },
    exchange := fun _ => .completed (.error (.other (str text))) }

/-- An attempt in which `http.NewRequest` fails, as it does for the URL `":"`. -/
def cannotBuild : HTTPAttempt :=
  { newRequest := fun _ _ => .error (.other (str "parse \":\": missing protocol scheme")),
    exchange := fun _ => .completed (.error (.other (str "not sent"))) }

/-- A waiter whose URL `":"` has no scheme, so that `http.NewRequest` fails. -/
def badURLWaiter : HTTPWaiter :=
  { Method := str "GET", URL := str ":", ExpectedStatus := 200, Content := [],
    EntireContent := true }

/-- An attempt under a cancelled context: the `select` of `do` takes `<-ctx.Done()`. -/
def cancelledExchange : HTTPAttempt :=
  { newRequest := fun m u => .ok { Method := m, URL := u },
    exchange := fun _ => .cancelled (.other (str "context canceled")) }

/-- The waiter of the TCP content tests: "pong" expected from `localhost:4242`, half a
second of `IOTimeout`. -/
def pongTCPWaiter (entire : Bool) : TCPWaiter :=
  { URL := str "localhost:4242", Content := str "pong", Write := [], IOTimeout := 500000000,
    EntireContent := entire }

/-- A TCP attempt in which the connection is established, writes succeed, and the peer
delivers `body` before the reads end with `streamEnd`. -/
def peerSends (body : String) (streamEnd : GoError) (matchedFirst : Nat → Bool) : TCPAttempt :=
  { dial := fun _ => none, write := fun _ => none, stream := str body, streamEnd := streamEnd,
    matchedFirst := matchedFirst }

/-- A TCP attempt in which `net.Dial` fails with `err`. -/
def dialFails (err : GoError) : TCPAttempt :=
  { dial := fun _ => some err, write := fun _ => none, stream := [], streamEnd := .eof,
    matchedFirst := fun _ => false }

/-- The statuses sent on a closed channel: a last one with `Done`, and before it only
statuses without `Done`. -/
def OneTerminalLast (out : List Status) : Prop :=
  ∃ init last, out = init ++ [last] ∧ last.Done = true ∧ ∀ s ∈ init, s.Done = false

/-- The value of `t.Write` after the `if !strings.HasSuffix(t.Write, "\n")` of tcp.go
lines 107 to 109, for the value `w` before it. -/
def withNewline (w : GoString) : GoString :=
  if ¬ hasSuffix w (str "\n") then w ++ str "\n" else w

/-- The receiver after a series of calls of `request` on it, one per attempt, as
`startWaiting` makes them. -/
def TCPWaiter.afterAttempts (t : TCPWaiter) : List TCPAttempt → TCPWaiter
  | [] => t
  | a :: rest => TCPWaiter.afterAttempts (t.request a).waiter rest

/-- The waiter of `TestTCPWrite`: it writes "ping" and expects no content. -/
def pingWaiter : TCPWaiter :=
  { URL := str "localhost:4242", Content := [], Write := str "ping", IOTimeout := 500000000,
    EntireContent := false }

/-! ## Lemmas on strings -/

theorem hasPrefix_iff (s p : GoString) : hasPrefix s p = true ↔ ∃ t, s = p ++ t := by
  induction p generalizing s with
  | nil => cases s <;> simp [hasPrefix]
  | cons y ys ih =>
    cases s with
    | nil => simp [hasPrefix]
    | cons x xs =>
      simp only [hasPrefix, Bool.and_eq_true, beq_iff_eq, ih, List.cons_append, List.cons.injEq]
      constructor
      · rintro ⟨rfl, t, rfl⟩
        exact ⟨t, rfl, rfl⟩
      · rintro ⟨t, rfl, rfl⟩
        exact ⟨rfl, t, rfl⟩

theorem contains_iff (s sub : GoString) : contains s sub = true ↔ Occurs sub s := by
  induction s with
  | nil =>
    simp only [contains, hasPrefix_iff, Occurs]
    constructor
    · rintro ⟨t, ht⟩
      exact ⟨[], t, by simpa using ht⟩
    · rintro ⟨a, b, hab⟩
      have h1 : a = [] ∧ sub = [] ∧ b = [] := by simpa [and_assoc] using hab.symm
      exact ⟨[], by simp [h1.2.1]⟩
  | cons x xs ih =>
    simp only [contains, Bool.or_eq_true, hasPrefix_iff, ih, Occurs]
    constructor
    · rintro (⟨t, ht⟩ | ⟨a, b, hab⟩)
      · exact ⟨[], t, by simpa using ht⟩
      · exact ⟨x :: a, b, by simp [hab]⟩
    · rintro ⟨a, b, hab⟩
      cases a with
      | nil => exact Or.inl ⟨b, by simpa using hab⟩
      | cons y a =>
        simp only [List.cons_append, List.cons.injEq] at hab
        exact Or.inr ⟨a, b, hab.2⟩

theorem contains_eq_false_iff (s sub : GoString) : contains s sub = false ↔ ¬ Occurs sub s := by
  rw [← contains_iff]; simp

/-! ## HTTP probe: theorems -/

/-- The callback on a response, as one chain of conditions. -/
theorem requestCallback_ok (h : HTTPWaiter) (resp : Response) :
    h.requestCallback (.ok resp) =
      if resp.StatusCode ≠ h.ExpectedStatus then
        { Done := false, Message := statusMismatchMessage resp.Status h.ExpectedStatus }
      else if h.Content = [] then { Done := true, Message := str "service available" }
      else if resp.BodyErr ≠ none then { Done := false, Message := str "could not read body" }
      else if h.EntireContent = true then
        if resp.Body = h.Content then { Done := true, Message := str "service available" }
        else { Done := false, Message := str "response does not match content" }
      else
        if contains resp.Body h.Content = true then
          { Done := true, Message := str "service available" }
        else { Done := false, Message := str "response does not contain content" } := by
  unfold HTTPWaiter.requestCallback
  by_cases h1 : resp.StatusCode = h.ExpectedStatus
  · by_cases h2 : h.Content = []
    · simp [h1, h2]
    · cases h3 : resp.BodyErr with
      | some e => simp [h1, h2, h3]
      | none =>
        by_cases h4 : h.EntireContent = true
        · by_cases h5 : resp.Body = h.Content <;> simp [h1, h2, h3, h4, h5]
        · by_cases h5 : contains resp.Body h.Content = true <;> simp [h1, h2, h3, h4, h5]
  · simp [h1]

/-- The callback on a transport error. -/
theorem requestCallback_error (h : HTTPWaiter) (err : GoError) :
    h.requestCallback (.error err) =
      if contains err.Error (str "connection refused") = true then
        { Done := false, Message := str "connection refused" }
      else if contains err.Error (str "no such host") = true then
        { Done := false, Message := str "could not reach host" }
      else { Done := false, Message := err.Error } := rfl

/-- A built request whose exchange completes returns the callback's status. -/
theorem request_built (h : HTTPWaiter) (a : HTTPAttempt) (req : Request)
    (result : Except GoError Response)
    (hreq : a.newRequest h.Method h.URL = .ok req) (hdo : a.exchange req = .completed result) :
    h.request a = h.requestCallback result := by
  simp [HTTPWaiter.request, HTTPWaiter.doReq, hreq, hdo]

/-- C1: when the request can be built and the exchange completes (the `select` of `do`
takes `<-errs`), `HTTPWaiter.request` returns
`Status{Done: true, Message: "service available", Error: nil}` exactly when the transport
gave a response without error, the status code equals `ExpectedStatus`, and either
`Content` is empty or the body was read without error and equals `Content`
(`EntireContent`) or contains it (otherwise); every other completed outcome has
`Done = false`. -/
theorem request_available_iff (h : HTTPWaiter) (a : HTTPAttempt) (req : Request)
    (result : Except GoError Response)
    (hreq : a.newRequest h.Method h.URL = .ok req) (hdo : a.exchange req = .completed result) :
    (h.request a = { Done := true, Message := str "service available", Error := none } ↔
      ∃ resp, result = .ok resp ∧ resp.StatusCode = h.ExpectedStatus ∧
        (h.Content = [] ∨
          (resp.BodyErr = none ∧
            (h.EntireContent = true → resp.Body = h.Content) ∧
            (h.EntireContent = false → Occurs h.Content resp.Body)))) ∧
    (h.request a ≠ { Done := true, Message := str "service available", Error := none } →
      (h.request a).Done = false) := by
  rw [request_built h a req result hreq hdo]
  cases result with
  | error err =>
    have hD : (h.requestCallback (.error err)).Done = false := by
      rw [requestCallback_error]
      split_ifs <;> rfl
    refine ⟨⟨fun heq => ?_, fun hex => ?_⟩, fun _ => hD⟩
    · rw [heq] at hD
      exact absurd hD (by decide)
    · obtain ⟨resp, hresp, _⟩ := hex
      exact absurd hresp (by simp)
  | ok resp =>
    rw [requestCallback_ok]
    simp only [Except.ok.injEq, exists_eq_left', ← contains_iff]
    by_cases h1 : resp.StatusCode = h.ExpectedStatus
    · by_cases h2 : h.Content = []
      · simp [h1, h2]
      · by_cases h3 : resp.BodyErr = none
        · cases h4 : h.EntireContent with
          | true => by_cases h5 : resp.Body = h.Content <;> simp [h1, h2, h3, h5]
          | false =>
            by_cases h5 : contains resp.Body h.Content = true <;> simp [h1, h2, h3, h5]
        · simp [h1, h2, h3]
    · simp [h1]

/-- C1 at the server of `TestHTTPWaiterRequestGoodStatus`: 200 with body "pong". -/
theorem request_available_iff_witness :
    (answers "200 OK" 200 "pong").newRequest pongWaiter.Method pongWaiter.URL =
        .ok { Method := pongWaiter.Method, URL := pongWaiter.URL } ∧
    (answers "200 OK" 200 "pong").exchange { Method := pongWaiter.Method, URL := pongWaiter.URL } =
        .completed (.ok { Status := str "200 OK", StatusCode := 200, Body := str "pong",
                          BodyErr := none }) ∧
    pongWaiter.request (answers "200 OK" 200 "pong") =
      { Done := true, Message := str "service available", Error := none } :=
  ⟨rfl, rfl,
    (request_available_iff pongWaiter (answers "200 OK" 200 "pong")
      { Method := pongWaiter.Method, URL := pongWaiter.URL }
      (.ok { Status := str "200 OK", StatusCode := 200, Body := str "pong", BodyErr := none })
      rfl rfl).1.2
      ⟨{ Status := str "200 OK", StatusCode := 200, Body := str "pong", BodyErr := none },
        rfl, rfl, Or.inr ⟨rfl, fun _ => rfl, fun hf => absurd hf (by decide)⟩⟩⟩

/-- C9: a response that arrives without transport error and fails a check gives
`Done = false`, `Error = nil` and the message of the first failing check: a status code
other than `ExpectedStatus` gives
`status "<resp.Status>" does not match expected status (<ExpectedStatus>)` whatever the
body is; with the expected status code, a non-empty `Content` and a body read without
error, a failed comparison gives "response does not match content" under `EntireContent`
and "response does not contain content" otherwise. -/
theorem request_failed_check (h : HTTPWaiter) (a : HTTPAttempt) (req : Request)
    (resp : Response) (hreq : a.newRequest h.Method h.URL = .ok req)
    (hdo : a.exchange req = .completed (.ok resp)) :
    (resp.StatusCode ≠ h.ExpectedStatus →
      h.request a =
        { Done := false,
          Message := str "status \"" ++ resp.Status ++ str "\" does not match expected status (" ++
            str (toString h.ExpectedStatus) ++ str ")",
          Error := none }) ∧
    (resp.StatusCode = h.ExpectedStatus → h.Content ≠ [] → resp.BodyErr = none →
      (h.EntireContent = true → resp.Body ≠ h.Content →
        h.request a =
          { Done := false, Message := str "response does not match content", Error := none }) ∧
      (h.EntireContent = false → ¬ Occurs h.Content resp.Body →
        h.request a =
          { Done := false, Message := str "response does not contain content", Error := none })) := by
  rw [request_built h a req _ hreq hdo, requestCallback_ok]
  refine ⟨fun h1 => ?_, fun h1 h2 h3 => ⟨fun h4 h5 => ?_, fun h4 h5 => ?_⟩⟩
  · simp [h1, statusMismatchMessage]
  · simp [h1, h2, h3, h4, h5]
  · rw [← contains_iff] at h5
    simp [h1, h2, h3, h4, h5]

/-- C9 at the servers of `TestHTTPWaiterRequestBadStatus` (503, empty body) and
`TestHTTPWaiterRequestBadContent` (200, empty body, "pong" expected). -/
theorem request_failed_check_witness :
    pongWaiter.request (answers "503 Service Unavailable" 503 "") =
      { Done := false,
        Message := str "status \"503 Service Unavailable\" does not match expected status (200)",
        Error := none } ∧
    pongWaiter.request (answers "200 OK" 200 "") =
      { Done := false, Message := str "response does not match content", Error := none } :=
  ⟨(request_failed_check pongWaiter (answers "503 Service Unavailable" 503 "")
      { Method := pongWaiter.Method, URL := pongWaiter.URL }
      { Status := str "503 Service Unavailable", StatusCode := 503, Body := str "",
        BodyErr := none } rfl rfl).1 (by decide),
   ((request_failed_check pongWaiter (answers "200 OK" 200 "")
      { Method := pongWaiter.Method, URL := pongWaiter.URL }
      { Status := str "200 OK", StatusCode := 200, Body := str "", BodyErr := none }
      rfl rfl).2 rfl (by decide) rfl).1 rfl (by decide)⟩

/-- C10: a transport error `e` of `client.Do` gives `Done = false` and `Error = nil`; the
message is "connection refused" when the text of `e` contains "connection refused",
otherwise "could not reach host" when it contains "no such host", otherwise the text of
`e` itself. -/
theorem request_transport_error (h : HTTPWaiter) (a : HTTPAttempt) (req : Request)
    (e : GoError) (hreq : a.newRequest h.Method h.URL = .ok req)
    (hdo : a.exchange req = .completed (.error e)) :
    (h.request a).Done = false ∧ (h.request a).Error = none ∧
    (Occurs (str "connection refused") e.Error →
      (h.request a).Message = str "connection refused") ∧
    (¬ Occurs (str "connection refused") e.Error → Occurs (str "no such host") e.Error →
      (h.request a).Message = str "could not reach host") ∧
    (¬ Occurs (str "connection refused") e.Error → ¬ Occurs (str "no such host") e.Error →
      (h.request a).Message = e.Error) := by
  rw [request_built h a req _ hreq hdo, requestCallback_error]
  simp only [← contains_iff]
  by_cases h1 : contains e.Error (str "connection refused") = true
  · simp [h1]
  · by_cases h2 : contains e.Error (str "no such host") = true <;> simp [h1, h2]

/-- C10 at the errors of `TestHTTPWaiterRequestNotUp` and `TestHTTPWaiterRequestBadServer`. -/
theorem request_transport_error_witness :
    (pongWaiter.request
        (transportFails "dial tcp 127.0.0.1:10000: getsockopt: connection refused")).Message =
      str "connection refused" ∧
    (pongWaiter.request
        (transportFails "dial tcp: lookup some.bad.hostname: no such host")).Message =
      str "could not reach host" :=
  ⟨(request_transport_error pongWaiter
      (transportFails "dial tcp 127.0.0.1:10000: getsockopt: connection refused")
      { Method := pongWaiter.Method, URL := pongWaiter.URL }
      (.other (str "dial tcp 127.0.0.1:10000: getsockopt: connection refused")) rfl rfl).2.2.1
      ((contains_iff _ _).1 (by decide)),
   (request_transport_error pongWaiter
      (transportFails "dial tcp: lookup some.bad.hostname: no such host")
      { Method := pongWaiter.Method, URL := pongWaiter.URL }
      (.other (str "dial tcp: lookup some.bad.hostname: no such host")) rfl rfl).2.2.2.1
      (fun hc => absurd ((contains_iff _ _).2 hc) (by decide))
      ((contains_iff _ _).1 (by decide))⟩

/-- C7 (the code departs from the claim): for the URL `":"` request construction fails,
and `HTTPWaiter.request` returns the error in a status with `Done = false`, so the loop
goes on to its next `select` and sends further statuses. -/
theorem request_cannot_build_not_done :
    badURLWaiter.request cannotBuild =
      { Done := false, Message := [],
        Error := some (.other (str "parse \":\": missing protocol scheme")) } ∧
    badURLWaiter.startWaiting [.next cannotBuild, .next cannotBuild, .timedOut] =
      { out := [{ Done := false, Message := [],
                  Error := some (.other (str "parse \":\": missing protocol scheme")) },
                { Done := false, Message := [],
                  Error := some (.other (str "parse \":\": missing protocol scheme")) },
                { Done := true, Message := [], Error := some (errorsNew (str "timed out")) }],
        closed := true } := by
  constructor <;> rfl

/-- C6 (the code departs from the claim): an HTTP attempt cancelled in flight and a TCP
connect failure outside the three classified causes both return a status with a non-nil
`Error` and `Done = false`, and the loop sends it as a non-terminal status. -/
theorem error_without_done :
    pongWaiter.request cancelledExchange =
      { Done := false, Message := [], Error := some (.other (str "context canceled")) } ∧
    ((pongTCPWaiter false).request
        (dialFails (.opError .otherCause (str "dial tcp: missing address")))).status =
      { Done := false, Message := [],
        Error := some (.opError .otherCause (str "dial tcp: missing address")) } ∧
    (pongWaiter.startWaiting [.next cancelledExchange, .ctxDone]).out =
      [{ Done := false, Message := [], Error := some (.other (str "context canceled")) },
       { Done := true, Message := [],
         Error := some (errorsNew (str "cancelled, ceasing wait")) }] := by
  refine ⟨rfl, rfl, rfl⟩

/-! ## Polling loop: theorems -/

theorem startWaitingLoop_timedOut {σ α : Type} (request : σ → α → σ × Status) (w : σ)
    (rest : List (SelectCase α)) :
    startWaitingLoop request w (.timedOut :: rest) =
      { out := [{ Done := true, Error := some (errorsNew (str "timed out")) }],
        closed := true } := rfl

theorem startWaitingLoop_ctxDone {σ α : Type} (request : σ → α → σ × Status) (w : σ)
    (rest : List (SelectCase α)) :
    startWaitingLoop request w (.ctxDone :: rest) =
      { out := [{ Done := true, Error := some (errorsNew (str "cancelled, ceasing wait")) }],
        closed := true } := rfl

theorem startWaitingLoop_next {σ α : Type} (request : σ → α → σ × Status) (w : σ) (a : α)
    (rest : List (SelectCase α)) :
    startWaitingLoop request w (.next a :: rest) =
      if (request w a).2.Done = true then { out := [(request w a).2], closed := true }
      else { out := (request w a).2 :: (startWaitingLoop request (request w a).1 rest).out,
             closed := (startWaitingLoop request (request w a).1 rest).closed } := rfl

/-- When the loop has closed the channel, one status with `Done` was sent, as the last
one; while the channel is open, no status with `Done` has been sent. -/
theorem startWaitingLoop_out {σ α : Type} (request : σ → α → σ × Status)
    (script : List (SelectCase α)) (w : σ) :
    ((startWaitingLoop request w script).closed = true →
      OneTerminalLast (startWaitingLoop request w script).out) ∧
    ((startWaitingLoop request w script).closed = false →
      ∀ s ∈ (startWaitingLoop request w script).out, s.Done = false) := by
  induction script generalizing w with
  | nil =>
    refine ⟨fun hc => ?_, fun _ s hs => ?_⟩
    · simp [startWaitingLoop] at hc
    · simp [startWaitingLoop] at hs
  | cons c rest ih =>
    cases c with
    | timedOut =>
      rw [startWaitingLoop_timedOut]
      exact ⟨fun _ => ⟨[], _, rfl, rfl, fun s hs => by simp at hs⟩, fun hc => by simp at hc⟩
    | ctxDone =>
      rw [startWaitingLoop_ctxDone]
      exact ⟨fun _ => ⟨[], _, rfl, rfl, fun s hs => by simp at hs⟩, fun hc => by simp at hc⟩
    | next a =>
      rw [startWaitingLoop_next]
      by_cases hd : (request w a).2.Done = true
      · simp only [hd, if_true]
        exact ⟨fun _ => ⟨[], _, rfl, hd, fun s hs => by simp at hs⟩, fun hc => by simp at hc⟩
      · simp only [hd, if_false]
        have hd' : (request w a).2.Done = false := by simpa using hd
        refine ⟨fun hc => ?_, fun hc s hs => ?_⟩
        · obtain ⟨init, last, hout, hlast, hinit⟩ := (ih (request w a).1).1 hc
          refine ⟨(request w a).2 :: init, last, by simp [hout], hlast, fun s hs => ?_⟩
          rcases List.mem_cons.1 hs with rfl | hs
          · exact hd'
          · exact hinit s hs
        · rcases List.mem_cons.1 hs with rfl | hs
          · exact hd'
          · exact (ih (request w a).1).2 hc s hs

/-- A script in which some `select` takes the timeout case or the cancellation case makes
the loop close the channel. -/
theorem startWaitingLoop_closes {σ α : Type} (request : σ → α → σ × Status)
    (script : List (SelectCase α)) (w : σ)
    (hstop : (∃ c ∈ script, c = SelectCase.timedOut) ∨ (∃ c ∈ script, c = SelectCase.ctxDone)) :
    (startWaitingLoop request w script).closed = true := by
  induction script generalizing w with
  | nil => simp at hstop
  | cons c rest ih =>
    cases c with
    | timedOut => rfl
    | ctxDone => rfl
    | next a =>
      rw [startWaitingLoop_next]
      by_cases hd : (request w a).2.Done = true
      · simp [hd]
      · simp only [hd, if_false]
        apply ih
        rcases hstop with ⟨c', hc', rfl⟩ | ⟨c', hc', rfl⟩
        · rcases List.mem_cons.1 hc' with hc' | hc'
          · cases hc'
          · exact Or.inl ⟨_, hc', rfl⟩
        · rcases List.mem_cons.1 hc' with hc' | hc'
          · cases hc'
          · exact Or.inr ⟨_, hc', rfl⟩

/-- C5: in every run of `HTTPWaiter.startWaiting` and of `TCPWaiter.startWaiting`, whatever
the attempts return and whichever cases the `select`s take, the channel is closed once a
`select` takes the timeout or the cancellation case; the statuses sent up to the close
are a non-empty sequence whose last status has `Done = true` and whose earlier statuses
have `Done = false`; and as long as the channel is open every status sent has
`Done = false`. -/
theorem startWaiting_one_terminal_last (h : HTTPWaiter) (t : TCPWaiter)
    (hs : List (SelectCase HTTPAttempt)) (ts : List (SelectCase TCPAttempt)) :
    (((∃ c ∈ hs, c = SelectCase.timedOut) ∨ (∃ c ∈ hs, c = SelectCase.ctxDone)) →
      (h.startWaiting hs).closed = true) ∧
    (((∃ c ∈ ts, c = SelectCase.timedOut) ∨ (∃ c ∈ ts, c = SelectCase.ctxDone)) →
      (t.startWaiting ts).closed = true) ∧
    ((h.startWaiting hs).closed = true →
      (h.startWaiting hs).out ≠ [] ∧ OneTerminalLast (h.startWaiting hs).out) ∧
    ((t.startWaiting ts).closed = true →
      (t.startWaiting ts).out ≠ [] ∧ OneTerminalLast (t.startWaiting ts).out) ∧
    ((h.startWaiting hs).closed = false → ∀ s ∈ (h.startWaiting hs).out, s.Done = false) ∧
    ((t.startWaiting ts).closed = false → ∀ s ∈ (t.startWaiting ts).out, s.Done = false) := by
  have nonempty : ∀ out : List Status, OneTerminalLast out → out ≠ [] := by
    rintro out ⟨init, last, rfl, -, -⟩
    simp
  refine ⟨startWaitingLoop_closes _ hs h, startWaitingLoop_closes _ ts t, fun hc => ?_,
    fun hc => ?_, (startWaitingLoop_out _ hs h).2, (startWaitingLoop_out _ ts t).2⟩
  · exact ⟨nonempty _ ((startWaitingLoop_out _ hs h).1 hc), (startWaitingLoop_out _ hs h).1 hc⟩
  · exact ⟨nonempty _ ((startWaitingLoop_out _ ts t).1 hc), (startWaitingLoop_out _ ts t).1 hc⟩

/-- C5 on two runs: an HTTP run of a refused attempt, a mismatching answer and the
timeout, and a TCP run of a refused connect and an exact match. -/
theorem startWaiting_one_terminal_last_witness :
    OneTerminalLast
      (pongWaiter.startWaiting
        [.next (transportFails "connection refused"), .next (answers "200 OK" 200 ""),
         .timedOut]).out ∧
    OneTerminalLast
      ((pongTCPWaiter true).startWaiting
        [.next (dialFails (.opError .syscallError (str "connection refused"))),
         .next (peerSends "pong" .eof (fun _ => false))]).out :=
  ⟨((startWaiting_one_terminal_last pongWaiter (pongTCPWaiter true)
      [.next (transportFails "connection refused"), .next (answers "200 OK" 200 ""), .timedOut]
      [.next (dialFails (.opError .syscallError (str "connection refused"))),
       .next (peerSends "pong" .eof (fun _ => false))]).2.2.1
      ((startWaiting_one_terminal_last pongWaiter (pongTCPWaiter true)
        [.next (transportFails "connection refused"), .next (answers "200 OK" 200 ""),
         .timedOut]
        [.next (dialFails (.opError .syscallError (str "connection refused"))),
         .next (peerSends "pong" .eof (fun _ => false))]).1
        (Or.inl ⟨_, by simp, rfl⟩))).2,
   ((startWaiting_one_terminal_last pongWaiter (pongTCPWaiter true)
      [.next (transportFails "connection refused"), .next (answers "200 OK" 200 ""), .timedOut]
      [.next (dialFails (.opError .syscallError (str "connection refused"))),
       .next (peerSends "pong" .eof (fun _ => false))]).2.2.2.1 rfl).2⟩

/-! ## TCP probe: theorems -/

/-- The write section leaves `Content` and `EntireContent` as they were. -/
theorem writing_fields (t : TCPWaiter) (a : TCPAttempt) :
    (t.writing a).1.Content = t.Content ∧ (t.writing a).1.EntireContent = t.EntireContent := by
  unfold TCPWaiter.writing
  split_ifs <;> exact ⟨rfl, rfl⟩

/-- The status of an attempt whose connection is established and whose write, if any,
succeeds, for a non-empty `Content`. -/
theorem tcp_request_connected (t : TCPWaiter) (a : TCPAttempt) (hdial : a.dial t.URL = none)
    (hw : (t.writing a).2.2 = none) (hc : t.Content ≠ []) :
    (t.request a).status =
      if t.EntireContent = true then
        if a.streamEnd ≠ .eof then
          if contains a.streamEnd.Error (str "i/o timeout") = true then
            { Done := true, Error := some errNoMatchTimeout }
          else { Done := true, Error := some a.streamEnd }
        else if a.stream = t.Content then { Done := true, Message := str "service available" }
        else { Done := true, Error := some errNoMatch }
      else selectLoop t.Content a.matchedFirst a.streamEnd a.stream 0 [] false := by
  have hst : (t.request a).status = (t.writing a).1.contentMatching a := by
    simp [TCPWaiter.request, hdial, hw]
  rw [hst]
  unfold TCPWaiter.contentMatching
  rw [(writing_fields t a).1, (writing_fields t a).2]
  simp only [hc, ne_eq, not_false_eq_true, if_true]

/-- As long as no match task is ready and `expected` does not occur in the bytes received
so far followed by the bytes still to come, the matching loop ends with what the reader
task reports at the end of the stream, whatever the schedule. -/
theorem selectLoop_no_match (expected : GoString) (matchedFirst : Nat → Bool)
    (streamEnd : GoError) (stream : GoString) (n : Nat) (content : GoString)
    (hno : ¬ Occurs expected (content ++ stream)) :
    selectLoop expected matchedFirst streamEnd stream n content false =
      if streamEnd = .eof then { Done := true, Error := some errNoMatch }
      else if contains streamEnd.Error (str "i/o timeout") = true then
        { Done := true, Error := some errNoMatchTimeout }
      else { Done := true, Error := some streamEnd } := by
  induction stream generalizing n content with
  | nil =>
    simp only [selectLoop, readerOffer, Bool.false_and, Bool.false_eq_true, if_false]
    split_ifs <;> rfl
  | cons b rest ih =>
    have hno' : ¬ Occurs expected ((content ++ [b]) ++ rest) := by simpa using hno
    have hcur : contains (content ++ [b]) expected = false := by
      rw [contains_eq_false_iff]
      rintro ⟨x, y, hxy⟩
      exact hno' ⟨x, y ++ rest, by simp [hxy]⟩
    simp only [selectLoop, Bool.false_and, Bool.false_eq_true, if_false, hcur, Bool.or_false]
    exact ih (n + 1) (content ++ [b]) hno'

/-- Once a match task is ready, a schedule that always gives `matched` precedence ends the
loop with the success status. -/
theorem selectLoop_ready (expected : GoString) (matchedFirst : Nat → Bool)
    (streamEnd : GoError) (stream : GoString) (n : Nat) (content : GoString)
    (hfirst : ∀ k, matchedFirst k = true) :
    selectLoop expected matchedFirst streamEnd stream n content true =
      { Done := true, Message := str "service available" } := by
  cases stream <;> simp [selectLoop, hfirst]

/-- When `expected` occurs in the stream and the schedule always gives `matched`
precedence, the loop ends with the success status. -/
theorem selectLoop_matched_first (expected : GoString) (matchedFirst : Nat → Bool)
    (streamEnd : GoError) (stream : GoString) (n : Nat) (content : GoString)
    (hfirst : ∀ k, matchedFirst k = true) (hnot : ¬ Occurs expected content)
    (hocc : Occurs expected (content ++ stream)) :
    selectLoop expected matchedFirst streamEnd stream n content false =
      { Done := true, Message := str "service available" } := by
  induction stream generalizing n content with
  | nil => exact absurd (by simpa using hocc) hnot
  | cons b rest ih =>
    have hocc' : Occurs expected ((content ++ [b]) ++ rest) := by simpa using hocc
    simp only [selectLoop, Bool.false_and, Bool.false_eq_true, if_false, Bool.false_or]
    cases hcur : contains (content ++ [b]) expected with
    | true => exact selectLoop_ready expected matchedFirst streamEnd rest (n + 1) _ hfirst
    | false =>
      exact ih (n + 1) (content ++ [b]) ((contains_eq_false_iff _ _).1 hcur) hocc'

/-- C2 (the code departs from the claim): the peer sends "pong" and closes, `Content` is
"pong" in substring mode. When the `select` takes the reader task's `eof` before the
`matched` of the match task (the task has not sent yet, or both are ready and `eof` is
chosen), `TCPWaiter.request` returns the error "no content match"; the same happens for
"pong etc". When `matched` is taken as soon as it is ready the status is the success
status. -/
theorem substring_match_lost_to_eof :
    ((pongTCPWaiter false).request (peerSends "pong" .eof (fun _ => false))).status =
      { Done := true, Message := [], Error := some (errorsNew (str "no content match")) } ∧
    ((pongTCPWaiter false).request (peerSends "pong etc" .eof (fun _ => false))).status =
      { Done := true, Message := [], Error := some (errorsNew (str "no content match")) } ∧
    ((pongTCPWaiter false).request (peerSends "pong" .eof (fun _ => true))).status =
      { Done := true, Message := str "service available", Error := none } := by
  refine ⟨by decide, by decide, by decide⟩

/-- C3: in exact-match mode with a non-empty `Content`, once the connection is established,
the write section reported no error and the reads reached the end of the stream without error with bytes
`a.stream`, `TCPWaiter.request` returns
`Status{Done: true, Message: "service available", Error: nil}` exactly when the bytes equal
`Content`; for all other bytes it returns a status with `Done = true` whose error has the
text "no content match". -/
theorem tcp_request_entire_content (t : TCPWaiter) (a : TCPAttempt) (hc : t.Content ≠ [])
    (he : t.EntireContent = true) (hdial : a.dial t.URL = none)
    (hw : (t.writing a).2.2 = none) (hend : a.streamEnd = .eof) :
    ((t.request a).status = { Done := true, Message := str "service available", Error := none } ↔
      a.stream = t.Content) ∧
    (a.stream ≠ t.Content →
      (t.request a).status.Done = true ∧
      (t.request a).status.Error.map GoError.Error = some (str "no content match")) := by
  rw [tcp_request_connected t a hdial hw hc]
  by_cases hs : a.stream = t.Content
  · simp [he, hend, hs]
  · simp only [he, hend, hs, if_true, if_false, ne_eq, not_true_eq_false, not_false_eq_true,
      iff_false, true_implies]
    exact ⟨by decide, trivial, rfl⟩

/-- C3 at the peers of `TestTCPGoodContent` ("pong") and `TestTCPBadContent` ("not pong"). -/
theorem tcp_request_entire_content_witness :
    ((pongTCPWaiter true).request (peerSends "pong" .eof (fun _ => false))).status =
      { Done := true, Message := str "service available", Error := none } ∧
    ((pongTCPWaiter true).request (peerSends "not pong" .eof (fun _ => false))).status.Error.map
      GoError.Error = some (str "no content match") :=
  ⟨(tcp_request_entire_content (pongTCPWaiter true) (peerSends "pong" .eof (fun _ => false))
      (by decide) rfl rfl rfl rfl).1.2 rfl,
   ((tcp_request_entire_content (pongTCPWaiter true)
      (peerSends "not pong" .eof (fun _ => false))
      (by decide) rfl rfl rfl rfl).2 (by decide)).2⟩

/-- C4: in substring mode with a non-empty `Content`, once the connection is established
and the write section reported no error, a stream in which `Content` never occurs gives, under every schedule
of the matching loop, a status with `Done = true` that depends only on how the reads end:
`io.EOF` gives the error "no content match", another error whose text contains
"i/o timeout" gives the error "no content match within iotimeout", and any other error `e`
gives `Error = e`. The status is never the success status. -/
theorem tcp_request_substring_absent (t : TCPWaiter) (a : TCPAttempt) (hc : t.Content ≠ [])
    (he : t.EntireContent = false) (hdial : a.dial t.URL = none)
    (hw : (t.writing a).2.2 = none) (hno : ¬ Occurs t.Content a.stream) :
    (t.request a).status.Done = true ∧
    (a.streamEnd = .eof →
      (t.request a).status =
        { Done := true, Message := [], Error := some (errorsNew (str "no content match")) }) ∧
    (a.streamEnd ≠ .eof → Occurs (str "i/o timeout") a.streamEnd.Error →
      (t.request a).status =
        { Done := true, Message := [],
          Error := some (errorsNew (str "no content match within iotimeout")) }) ∧
    (a.streamEnd ≠ .eof → ¬ Occurs (str "i/o timeout") a.streamEnd.Error →
      (t.request a).status = { Done := true, Message := [], Error := some a.streamEnd }) ∧
    (t.request a).status ≠ { Done := true, Message := str "service available", Error := none } := by
  rw [tcp_request_connected t a hdial hw hc]
  simp only [he, Bool.false_eq_true, if_false]
  rw [selectLoop_no_match t.Content a.matchedFirst a.streamEnd a.stream 0 [] (by simpa using hno)]
  simp only [← contains_iff]
  by_cases h1 : a.streamEnd = .eof
  · simp [h1, errNoMatch]
  · by_cases h2 : contains a.streamEnd.Error (str "i/o timeout") = true
    · simp [h1, h2, errNoMatchTimeout]
    · simp [h1, h2]

/-- C4 at the peer of `TestTCPBadContentPartial` ("ping", then the end of the stream) and
at a peer that sends "p" and then stalls past the deadline. -/
theorem tcp_request_substring_absent_witness :
    ((pongTCPWaiter false).request (peerSends "ping" .eof (fun _ => true))).status =
      { Done := true, Message := [], Error := some (errorsNew (str "no content match")) } ∧
    ((pongTCPWaiter false).request
        (peerSends "p" (.opError .otherCause (str "read tcp 127.0.0.1:4242: i/o timeout"))
          (fun _ => true))).status =
      { Done := true, Message := [],
        Error := some (errorsNew (str "no content match within iotimeout")) } :=
  ⟨(tcp_request_substring_absent (pongTCPWaiter false) (peerSends "ping" .eof (fun _ => true))
      (by decide) rfl rfl rfl
      (fun ho => absurd ((contains_iff _ _).2 ho) (by decide))).2.1 rfl,
   (tcp_request_substring_absent (pongTCPWaiter false)
      (peerSends "p" (.opError .otherCause (str "read tcp 127.0.0.1:4242: i/o timeout"))
        (fun _ => true))
      (by decide) rfl rfl rfl
      (fun ho => absurd ((contains_iff _ _).2 ho) (by decide))).2.2.1 (by decide)
      ((contains_iff _ _).1 (by decide))⟩

/-! ## Cancellation before the first `select` -/

/-- C8 (counterexample): the context is cancelled before `Wait`, the timeout has not
elapsed, and the first `select` takes the attempt timer, which `time.After(0)` makes
ready. The TCP attempt does not read the context: against a closed port the first status
is `Status{Done: false, Message: "connection refused"}`, with no error. The HTTP attempt
whose `do` takes `<-ctx.Done()` gives a first status with `Done = false`. -/
theorem first_status_under_cancelled_context :
    (((pongTCPWaiter false).startWaiting
        [.next (dialFails (.opError .syscallError
          (str "dial tcp 127.0.0.1:4242: getsockopt: connection refused")))]).out =
      [{ Done := false, Message := str "connection refused", Error := none }]) ∧
    ((pongWaiter.startWaiting [.next cancelledExchange]).out.map Status.Done = [false]) := by
  constructor <;> rfl

/-- C8 (amended): when the first `select` takes the cancellation case, the one status sent
is terminal with the error "cancelled, ceasing wait" and the channel is closed, for HTTP
and for TCP. When it takes the attempt timer, the first status sent is the status of the
attempt: for HTTP, an attempt whose `do` takes `<-ctx.Done()` returns a status whose
error is `ctx.Err()`; for TCP, the status of `request`, which does not read the context. -/
theorem startWaiting_cancelled_first (h : HTTPWaiter) (t : TCPWaiter) (a : HTTPAttempt)
    (b : TCPAttempt) (hrest : List (SelectCase HTTPAttempt))
    (trest : List (SelectCase TCPAttempt)) (req : Request) (ctxErr : GoError)
    (hreq : a.newRequest h.Method h.URL = .ok req) (hdo : a.exchange req = .cancelled ctxErr) :
    h.startWaiting (.ctxDone :: hrest) =
      { out := [{ Done := true, Message := [],
                  Error := some (errorsNew (str "cancelled, ceasing wait")) }],
        closed := true } ∧
    t.startWaiting (.ctxDone :: trest) =
      { out := [{ Done := true, Message := [],
                  Error := some (errorsNew (str "cancelled, ceasing wait")) }],
        closed := true } ∧
    (h.startWaiting (.next a :: hrest)).out.head? = some (h.request a) ∧
    (h.request a).Error = some ctxErr ∧
    (t.startWaiting (.next b :: trest)).out.head? = some (t.request b).status := by
  refine ⟨rfl, rfl, ?_, ?_, ?_⟩
  · unfold HTTPWaiter.startWaiting
    rw [startWaitingLoop_next]
    split_ifs <;> rfl
  · simp [HTTPWaiter.request, HTTPWaiter.doReq, hreq, hdo]
  · unfold TCPWaiter.startWaiting
    rw [startWaitingLoop_next]
    split_ifs <;> rfl

/-- C8 (amended) at an HTTP attempt cancelled in flight and a TCP attempt against a
closed port. -/
theorem startWaiting_cancelled_first_witness :
    pongWaiter.startWaiting [.ctxDone] =
      { out := [{ Done := true, Message := [],
                  Error := some (errorsNew (str "cancelled, ceasing wait")) }],
        closed := true } ∧
    (pongWaiter.request cancelledExchange).Error = some (.other (str "context canceled")) :=
  ⟨(startWaiting_cancelled_first pongWaiter (pongTCPWaiter false) cancelledExchange
      (dialFails (.opError .syscallError (str "connection refused"))) [] []
      { Method := pongWaiter.Method, URL := pongWaiter.URL } (.other (str "context canceled"))
      rfl rfl).1,
   (startWaiting_cancelled_first pongWaiter (pongTCPWaiter false) cancelledExchange
      (dialFails (.opError .syscallError (str "connection refused"))) [] []
      { Method := pongWaiter.Method, URL := pongWaiter.URL } (.other (str "context canceled"))
      rfl rfl).2.2.2.1⟩

/-! ## TCP probe: the write section and the receiver -/

theorem hasSuffix_iff (s suffix : GoString) :
    hasSuffix s suffix = true ↔ ∃ u, s = u ++ suffix := by
  unfold hasSuffix
  rw [hasPrefix_iff]
  constructor
  · rintro ⟨r, hr⟩
    refine ⟨r.reverse, ?_⟩
    have := congrArg List.reverse hr
    simpa using this
  · rintro ⟨u, rfl⟩
    exact ⟨u.reverse, by simp⟩

theorem withNewline_eq (w : GoString) :
    ((∃ u, w = u ++ str "\n") → withNewline w = w) ∧
    ((¬ ∃ u, w = u ++ str "\n") → withNewline w = w ++ str "\n") := by
  unfold withNewline
  rw [← hasSuffix_iff]
  constructor <;> intro h <;> simp [h]

theorem withNewline_idem (w : GoString) : withNewline (withNewline w) = withNewline w := by
  by_cases h : ∃ u, w = u ++ str "\n"
  · rw [(withNewline_eq w).1 h, (withNewline_eq w).1 h]
  · rw [(withNewline_eq w).2 h]
    exact (withNewline_eq _).1 ⟨w, rfl⟩

theorem withNewline_ne_nil (w : GoString) (hw : w ≠ []) : withNewline w ≠ [] := by
  unfold withNewline
  split_ifs <;> simp [hw]

/-- The write section on a non-empty `Write`: the receiver's `Write` afterwards and the
argument of `conn.Write` are both `withNewline t.Write`, and no other field changes. -/
theorem writing_nonempty (t : TCPWaiter) (a : TCPAttempt) (hw : t.Write ≠ []) :
    (t.writing a).1 = { t with Write := withNewline t.Write } ∧
    (t.writing a).2.1 = some (withNewline t.Write) := by
  unfold TCPWaiter.writing withNewline
  simp only [hw, ne_eq, not_false_eq_true, if_true]
  split_ifs <;> exact ⟨rfl, rfl⟩

/-- The write section on an empty `Write` does nothing. -/
theorem writing_empty (t : TCPWaiter) (a : TCPAttempt) (hw : t.Write = []) :
    t.writing a = (t, none, none) := by
  unfold TCPWaiter.writing
  simp [hw]

/-- The receiver and the written bytes of an attempt whose connect fails. -/
theorem tcp_request_dial_failed (t : TCPWaiter) (a : TCPAttempt) (err : GoError)
    (hdial : a.dial t.URL = some err) :
    t.request a = { waiter := t, written := none, status := TCPWaiter.errorMatching err } := by
  simp [TCPWaiter.request, hdial]

/-- The receiver and the written bytes of an attempt whose connect succeeds. -/
theorem tcp_request_dialed (t : TCPWaiter) (a : TCPAttempt) (hdial : a.dial t.URL = none) :
    (t.request a).waiter = (t.writing a).1 ∧ (t.request a).written = (t.writing a).2.1 := by
  unfold TCPWaiter.request
  simp only [hdial]
  cases (t.writing a).2.2 <;> exact ⟨rfl, rfl⟩

/-- One attempt changes at most `Write`, and `Write` only to `withNewline` of itself. -/
theorem tcp_request_waiter (t : TCPWaiter) (a : TCPAttempt) :
    (t.request a).waiter = t ∨
      (t.request a).waiter = { t with Write := withNewline t.Write } := by
  cases hdial : a.dial t.URL with
  | some err => exact Or.inl (by rw [tcp_request_dial_failed t a err hdial])
  | none =>
    rw [(tcp_request_dialed t a hdial).1]
    by_cases hw : t.Write = []
    · exact Or.inl (by rw [writing_empty t a hw])
    · exact Or.inr (writing_nonempty t a hw).1

/-- A series of attempts keeps `URL`, keeps `Write` non-empty, and keeps the bytes the
next write will send. -/
theorem afterAttempts_keeps (t : TCPWaiter) (earlier : List TCPAttempt) (hw : t.Write ≠ []) :
    (t.afterAttempts earlier).URL = t.URL ∧ (t.afterAttempts earlier).Write ≠ [] ∧
    withNewline (t.afterAttempts earlier).Write = withNewline t.Write := by
  induction earlier generalizing t with
  | nil => exact ⟨rfl, hw, rfl⟩
  | cons a rest ih =>
    unfold TCPWaiter.afterAttempts
    rcases tcp_request_waiter t a with h | h
    · rw [h]
      exact ih t hw
    · rw [h]
      have := ih { t with Write := withNewline t.Write } (withNewline_ne_nil _ hw)
      refine ⟨this.1, this.2.1, ?_⟩
      rw [this.2.2]
      exact withNewline_idem _

/-- C11: for a waiter with a non-empty `Write` string `w`, an attempt whose connect
succeeds passes to `conn.Write` the bytes `w` when `w` ends with a newline and `w`
followed by one newline otherwise; this holds for the first attempt (`earlier = []`) and
for an attempt made after any series of earlier attempts on the same waiter, so the
payload of every attempt is the same and the newline is not appended again. -/
theorem tcp_request_payload (t : TCPWaiter) (earlier : List TCPAttempt) (a : TCPAttempt)
    (hw : t.Write ≠ []) (hdial : a.dial t.URL = none) :
    ((∃ u, t.Write = u ++ str "\n") →
      ((t.afterAttempts earlier).request a).written = some t.Write) ∧
    ((¬ ∃ u, t.Write = u ++ str "\n") →
      ((t.afterAttempts earlier).request a).written = some (t.Write ++ str "\n")) := by
  obtain ⟨hurl, hne, hsame⟩ := afterAttempts_keeps t earlier hw
  have hwritten : ((t.afterAttempts earlier).request a).written =
      some (withNewline t.Write) := by
    rw [(tcp_request_dialed _ a (by rw [hurl]; exact hdial)).2,
      (writing_nonempty _ a hne).2, hsame]
  rw [hwritten]
  exact ⟨fun h => by rw [(withNewline_eq _).1 h], fun h => by rw [(withNewline_eq _).2 h]⟩

/-- C11 at the waiter of `TestTCPWrite`: "ping" goes out as "ping\n" on the first attempt
and on an attempt that follows a served attempt and a refused connect. -/
theorem tcp_request_payload_witness :
    (pingWaiter.request (peerSends "pong" .eof (fun _ => false))).written =
      some (str "ping\n") ∧
    ((pingWaiter.afterAttempts
        [peerSends "pong" .eof (fun _ => false),
         dialFails (.opError .syscallError (str "connection refused"))]).request
      (peerSends "pong" .eof (fun _ => false))).written = some (str "ping\n") :=
  ⟨(tcp_request_payload pingWaiter [] (peerSends "pong" .eof (fun _ => false))
      (by decide) rfl).2
      (fun hs => absurd ((hasSuffix_iff _ _).2 hs) (by decide)),
   (tcp_request_payload pingWaiter
      [peerSends "pong" .eof (fun _ => false),
       dialFails (.opError .syscallError (str "connection refused"))]
      (peerSends "pong" .eof (fun _ => false)) (by decide) rfl).2
      (fun hs => absurd ((hasSuffix_iff _ _).2 hs) (by decide))⟩

/-- C12 (counterexample): the waiter of `TestTCPWrite` has `Write = "ping"` before an
attempt whose connect succeeds and `Write = "ping\n"` after it. -/
theorem tcp_request_changes_write :
    pingWaiter.Write = str "ping" ∧
    (pingWaiter.request (peerSends "pong" .eof (fun _ => false))).waiter.Write = str "ping\n" ∧
    (pingWaiter.request (peerSends "pong" .eof (fun _ => false))).waiter.Write ≠
      pingWaiter.Write := by
  refine ⟨rfl, rfl, by decide⟩

/-- C12 (amended): a TCP attempt leaves `URL`, `Content`, `IOTimeout` and `EntireContent`
as they were. It leaves `Write` as it was when the connect fails, when `Write` is empty
and when `Write` ends with a newline; when the connect succeeds on a non-empty `Write`
without a trailing newline, `Write` is afterwards the old value followed by one newline.
An HTTP attempt assigns to no field: after a status without `Done` the loop goes on with
the same waiter. -/
theorem request_frame (t : TCPWaiter) (a : TCPAttempt) (h : HTTPWaiter) (x : HTTPAttempt)
    (rest : List (SelectCase HTTPAttempt)) :
    (t.request a).waiter.URL = t.URL ∧
    (t.request a).waiter.Content = t.Content ∧
    (t.request a).waiter.IOTimeout = t.IOTimeout ∧
    (t.request a).waiter.EntireContent = t.EntireContent ∧
    ((a.dial t.URL ≠ none ∨ t.Write = [] ∨ ∃ u, t.Write = u ++ str "\n") →
      (t.request a).waiter = t) ∧
    (a.dial t.URL = none → t.Write ≠ [] → (¬ ∃ u, t.Write = u ++ str "\n") →
      (t.request a).waiter.Write = t.Write ++ str "\n") ∧
    ((h.request x).Done = false →
      h.startWaiting (.next x :: rest) =
        { out := h.request x :: (h.startWaiting rest).out,
          closed := (h.startWaiting rest).closed }) := by
  have hfields : (t.request a).waiter.URL = t.URL ∧ (t.request a).waiter.Content = t.Content ∧
      (t.request a).waiter.IOTimeout = t.IOTimeout ∧
      (t.request a).waiter.EntireContent = t.EntireContent := by
    rcases tcp_request_waiter t a with hwt | hwt <;> rw [hwt] <;> exact ⟨rfl, rfl, rfl, rfl⟩
  refine ⟨hfields.1, hfields.2.1, hfields.2.2.1, hfields.2.2.2, fun hcase => ?_,
    fun hdial hw hnl => ?_, fun hd => ?_⟩
  · cases hdial : a.dial t.URL with
    | some err => rw [tcp_request_dial_failed t a err hdial]
    | none =>
      rw [(tcp_request_dialed t a hdial).1]
      by_cases hw : t.Write = []
      · rw [writing_empty t a hw]
      · rcases hcase with hc | hc | hc
        · exact absurd hdial hc
        · exact absurd hc hw
        · rw [(writing_nonempty t a hw).1, (withNewline_eq _).1 hc]
  · rw [(tcp_request_dialed t a hdial).1, (writing_nonempty t a hw).1, (withNewline_eq _).2 hnl]
  · unfold HTTPWaiter.startWaiting
    rw [startWaitingLoop_next]
    simp [hd]

/-- C12 (amended) at the waiter of `TestTCPWrite`: a refused connect leaves it as it was,
and a served attempt turns "ping" into "ping\n". -/
theorem request_frame_witness :
    (pingWaiter.request (dialFails (.opError .syscallError (str "connection refused")))).waiter =
      pingWaiter ∧
    (pingWaiter.request (peerSends "pong" .eof (fun _ => false))).waiter.Write =
      pingWaiter.Write ++ str "\n" :=
  ⟨(request_frame pingWaiter (dialFails (.opError .syscallError (str "connection refused")))
      pongWaiter (answers "200 OK" 200 "pong") []).2.2.2.2.1 (Or.inl (by decide)),
   (request_frame pingWaiter (peerSends "pong" .eof (fun _ => false))
      pongWaiter (answers "200 OK" 200 "pong") []).2.2.2.2.2.1 rfl (by decide)
      (fun hs => absurd ((hasSuffix_iff _ _).2 hs) (by decide))⟩

/-- C13: when the connect fails with `err`, `TCPWaiter.request` returns a status with
`Done = false` and `Error = nil` exactly when `err` is a `*net.OpError` whose `Err` is a
`*net.DNSError` (message "could not reach host"), an `*os.SyscallError` or a
`*net.AddrError` (message "connection refused" for both); for every other `err` the
status has `Error = err`. -/
theorem tcp_request_connect_error (t : TCPWaiter) (a : TCPAttempt) (err : GoError)
    (hdial : a.dial t.URL = some err) :
    (((t.request a).status.Done = false ∧ (t.request a).status.Error = none) ↔
      ∃ text, err = .opError .dnsError text ∨ err = .opError .syscallError text ∨
        err = .opError .addrError text) ∧
    (∀ text, err = .opError .dnsError text →
      (t.request a).status =
        { Done := false, Message := str "could not reach host", Error := none }) ∧
    (∀ text, err = .opError .syscallError text ∨ err = .opError .addrError text →
      (t.request a).status =
        { Done := false, Message := str "connection refused", Error := none }) ∧
    ((¬ ∃ text, err = .opError .dnsError text ∨ err = .opError .syscallError text ∨
        err = .opError .addrError text) →
      (t.request a).status.Error = some err) := by
  rw [tcp_request_dial_failed t a err hdial]
  cases err with
  | eof => simp [TCPWaiter.errorMatching]
  | errorString text => simp [TCPWaiter.errorMatching]
  | other text => simp [TCPWaiter.errorMatching]
  | opError cause text => cases cause <;> simp [TCPWaiter.errorMatching]

/-- C13 at the connect errors of `TestTCPNotUp` (an address error) and of a failed
lookup, and at a connect error with another cause. -/
theorem tcp_request_connect_error_witness :
    ((pongTCPWaiter false).request
        (dialFails (.opError .addrError
          (str "dial tcp: too many colons in address")))).status =
      { Done := false, Message := str "connection refused", Error := none } ∧
    ((pongTCPWaiter false).request
        (dialFails (.opError .dnsError
          (str "dial tcp: lookup some.bad.hostname: no such host")))).status =
      { Done := false, Message := str "could not reach host", Error := none } ∧
    ((pongTCPWaiter false).request
        (dialFails (.opError .otherCause (str "dial tcp: missing address")))).status.Error =
      some (.opError .otherCause (str "dial tcp: missing address")) :=
  ⟨(tcp_request_connect_error (pongTCPWaiter false)
      (dialFails (.opError .addrError (str "dial tcp: too many colons in address")))
      (.opError .addrError (str "dial tcp: too many colons in address")) rfl).2.2.1 _
      (Or.inr rfl),
   (tcp_request_connect_error (pongTCPWaiter false)
      (dialFails (.opError .dnsError (str "dial tcp: lookup some.bad.hostname: no such host")))
      (.opError .dnsError (str "dial tcp: lookup some.bad.hostname: no such host")) rfl).2.1 _
      rfl,
   (tcp_request_connect_error (pongTCPWaiter false)
      (dialFails (.opError .otherCause (str "dial tcp: missing address")))
      (.opError .otherCause (str "dial tcp: missing address")) rfl).2.2.2
      (by simp)⟩

end Smlr
